import Mathlib

/-!
Verification of the blood-bag chaincode (src/blood.js) against its
natural-language specification.

The chaincode is shallowly embedded: the ledger is a total map from string
keys to stored values, a stored value is either the empty byte string
(absent key), the JSON serialization of a blood-bag record, or raw
non-JSON bytes (such as the composite-index sentinel).  Each chaincode
operation becomes a pure function from its string-argument list and a
store to an error-or-result together with the store after the call.
-/

set_option maxHeartbeats 1000000

/-- Blood bag record exactly as assembled in createBloodBag
    (src/blood.js lines 100-110), one string field per JS assignment. -/
structure BloodBag where
  docType : String
  id : String
  originId : String
  location : String
  status : String
  recipient : String
  destination : String
  type : String
  rh : String
  size : String
deriving DecidableEq

/-- A value stored in the ledger.  fabric-shim getState always resolves to a
    Buffer; a zero-length Buffer stands for an absent key.  `json b` is the
    Buffer holding JSON.stringify of a bag record, `raw s` any other byte
    content (e.g. the index sentinel or corrupted data, which JSON.parse
    rejects). -/
inductive Bytes where
  | empty
  | json (b : BloodBag)
  | raw (s : String)
deriving DecidableEq

/-- Truthiness of value.toString() in JS: true iff the decoded string is
    non-empty.  JSON.stringify of the blood-bag object literal is never the
    empty string, so a stored record is always truthy. -/
def Bytes.truthyStr : Bytes → Bool
  | .empty => false
  | .json _ => true
  | .raw s => s ≠ ""

/-- The text delivered by value.toString('utf8'): empty for a zero-length
    buffer, the raw characters otherwise.  For `json b` the text is the JSON
    rendering; its precise characters are never inspected by the code (the
    raw-text substitution only ever fires after a failed JSON.parse), so it
    is left as an uninterpreted non-empty placeholder. -/
def Bytes.rawText : Bytes → String
  | .empty => ""
  | .json _ => "jsonText"
  | .raw s => s

/-- JSON.parse of the stored bytes, as a bag record: succeeds exactly on the
    JSON serialization of a record; the empty string, the index sentinel
    and any other non-JSON bytes throw. -/
def Bytes.decode : Bytes → Option BloodBag
  | .json b => some b
  | _ => none

/-- A JS Buffer object is truthy regardless of its length; used to model the
    `if (!bagAsBytes)` guard in deleteBloodBag (src/blood.js line 171). -/
def jsBufferTruthy (_ : Bytes) : Bool := true

/-- The ledger state: a total map from keys to stored values, with
    `Bytes.empty` meaning the key is absent. -/
abbrev Store := String → Bytes

def Store.init : Store := fun _ => Bytes.empty

def getState (σ : Store) (k : String) : Bytes := σ k

def putState (σ : Store) (k : String) (v : Bytes) : Store :=
  fun k' => if k' = k then v else σ k'

def deleteState (σ : Store) (k : String) : Store :=
  fun k' => if k' = k then Bytes.empty else σ k'

/-- The error kinds of the spec (section 7), tagged with the offending key
    where the thrown message carries one. -/
inductive Err where
  | invalidArgument (msg : String)
  | alreadyExists (id : String)
  | notFound (id : String)
  | decodeError (id : String)
  | indexError
deriving DecidableEq

/-- fabric-shim stub.createCompositeKey: a null-byte namespace marker, the
    object type, then each attribute preceded by the minimum unicode rune
    (the null character) as separator. -/
def createCompositeKey (objectType : String) (attributes : List String) : String :=
  attributes.foldl (fun ck attr => ck ++ "\x00" ++ attr) ("\x00" ++ objectType)

/-- The composite index key used by the chaincode: namespace 'type~id' with
    the bag's type and id as attributes. -/
def typeIdKey (t i : String) : String := createCompositeKey "type~id" [t, i]

/-- createBloodBag (src/blood.js lines 56-121): six-argument input
    sanitation, existence check by non-empty stored value, then one write
    for the record and one for the composite index sentinel '\u0000'. -/
def createBloodBag (args : List String) (σ : Store) : Except Err Unit × Store :=
  match args with
  | [a0, a1, a2, a3, a4, a5] =>
    if a0.length ≤ 0 then
      (Except.error (Err.invalidArgument "1st argument must be a non-empty string literal"), σ)
    else if a1.length ≤ 0 then
      (Except.error (Err.invalidArgument "2nd argument must be a non-empty string literal"), σ)
    else if a2.length ≤ 0 then
      (Except.error (Err.invalidArgument "3rd argument must be a non-empty string literal"), σ)
    else if a3.length ≤ 0 then
      (Except.error (Err.invalidArgument "4th argument must be a non-empty string literal"), σ)
    else if a4.length ≤ 0 then
      (Except.error (Err.invalidArgument "5th argument must be a non-empty string literal"), σ)
    else if a5.length ≤ 0 then
      (Except.error (Err.invalidArgument "6th argument must be a non-empty string literal"), σ)
    else
      let bloodBagState := getState σ a0
      if bloodBagState.truthyStr then
        (Except.error (Err.alreadyExists a0), σ)
      else
        let bloodBag : BloodBag :=
          { docType := "bloodbag"
            id := a0
            originId := a1
            location := a2
            status := "UNASIGNED"
            recipient := "UNASIGNED"
            destination := "UNASIGNED"
            type := a3
            rh := a4
            size := a5 }
        let σ1 := putState σ a0 (Bytes.json bloodBag)
        let typeIdIndexKey := createCompositeKey "type~id" [bloodBag.type, bloodBag.id]
        let σ2 := putState σ1 typeIdIndexKey (Bytes.raw "\x00")
        (Except.ok (), σ2)
  | _ => (Except.error (Err.invalidArgument "Incorrect number of arguments. Expecting 6"), σ)

/-- readBloodBag (src/blood.js lines 130-149): NotFound when the stored
    value's string form is empty; otherwise the stored bytes are returned
    as they are, without any decode. -/
def readBloodBag (args : List String) (σ : Store) : Except Err Bytes × Store :=
  match args with
  | [iD] =>
    if iD = "" then
      (Except.error (Err.invalidArgument "Blood Bag ID must not be empty"), σ)
    else
      let bloodBagAsBytes := getState σ iD
      if bloodBagAsBytes.truthyStr = false then
        (Except.error (Err.notFound iD), σ)
      else
        (Except.ok bloodBagAsBytes, σ)
  | _ =>
    (Except.error (Err.invalidArgument "Incorrect number of arguments. Expecting ID of Blood Bag to query"), σ)

/-- deleteBloodBag (src/blood.js lines 158-193).  The absence guard tests
    the Buffer object itself (`if (!bagAsBytes)`), which is always truthy,
    so it never fires; an absent key then fails JSON.parse of the empty
    string.  On success the record is deleted first, then the recomputed
    composite index key. -/
def deleteBloodBag (args : List String) (σ : Store) : Except Err Unit × Store :=
  match args with
  | [iD] =>
    if iD = "" then
      (Except.error (Err.invalidArgument "Blood Bag ID must not be empty"), σ)
    else
      let bagAsBytes := getState σ iD
      if jsBufferTruthy bagAsBytes = false then
        (Except.error (Err.notFound iD), σ)
      else
        match bagAsBytes.decode with
        | none => (Except.error (Err.decodeError iD), σ)
        | some bagJSON =>
          let σ1 := deleteState σ iD
          let typeIdIndexKey := createCompositeKey "type~id" [bagJSON.type, bagJSON.id]
          if typeIdIndexKey = "" then
            (Except.error Err.indexError, σ1)
          else
            (Except.ok (), deleteState σ1 typeIdIndexKey)
  | _ =>
    (Except.error (Err.invalidArgument "Incorrect number of arguments. Expecting ID of the Blood Bag to delete"), σ)

/-- moveBagToLocation (src/blood.js lines 202-239): read, decode, set
    location, and set status RECEIVED when the new location equals the
    record's destination, INTRANSIT otherwise; full rewrite of the record. -/
def moveBagToLocation (args : List String) (σ : Store) : Except Err Unit × Store :=
  match args with
  | iD :: location :: _ =>
    let bagAsBytes := getState σ iD
    if jsBufferTruthy bagAsBytes = false ∨ bagAsBytes.truthyStr = false then
      (Except.error (Err.notFound iD), σ)
    else
      match bagAsBytes.decode with
      | none => (Except.error (Err.decodeError iD), σ)
      | some bagToMove =>
        let bagMoved :=
          if bagToMove.destination = location then
            { bagToMove with location := location, status := "RECEIVED" }
          else
            { bagToMove with location := location, status := "INTRANSIT" }
        (Except.ok (), putState σ iD (Bytes.json bagMoved))
  | _ =>
    (Except.error (Err.invalidArgument "Incorrect number of arguments. Expecting Blood Bag ID and new Location"), σ)

/-- assignBloodBagReceiver (src/blood.js lines 248-283): read, decode, set
    recipient and destination from the arguments and status ASSIGNED,
    unconditionally; full rewrite of the record. -/
def assignBloodBagReceiver (args : List String) (σ : Store) : Except Err Unit × Store :=
  match args with
  | iD :: recipient :: destination :: _ =>
    let bagAsBytes := getState σ iD
    if jsBufferTruthy bagAsBytes = false ∨ bagAsBytes.truthyStr = false then
      (Except.error (Err.notFound iD), σ)
    else
      match bagAsBytes.decode with
      | none => (Except.error (Err.decodeError iD), σ)
      | some bagToMove =>
        let bagAssigned :=
          { bagToMove with recipient := recipient, destination := destination, status := "ASSIGNED" }
        (Except.ok (), putState σ iD (Bytes.json bagAssigned))
  | _ =>
    (Except.error (Err.invalidArgument "Incorrect number of arguments. Expecting Blood Bag ID, recipientID and Destination"), σ)

/-- One snapshot delivered by the store's history cursor
    (fabric-shim KeyModification, plus the `key` field that range-query
    iterators deliver; history snapshots leave it empty). -/
structure KeyMod where
  key : String
  tx_id : String
  timestamp : Nat
  is_delete : Bool
  value : Bytes
deriving DecidableEq

/-- The payload stored under Value/Record of one reconstructed entry:
    either the decoded record or, after a failed decode, the raw text. -/
inductive JVal where
  | parsed (b : BloodBag)
  | rawStr (s : String)
deriving DecidableEq

/-- One element of the allResults array built by getAllResults; the fields
    the code never assigns on a given branch are `none`. -/
structure JsonRes where
  TxId : Option String := none
  Timestamp : Option Nat := none
  IsDelete : Option String := none
  Key : Option String := none
  Record : Option JVal := none
  Value : Option JVal := none
deriving DecidableEq

/-- The jsonRes object built for one history snapshot
    (src/blood.js lines 298-307): transaction id, timestamp, the deletion
    flag rendered by Boolean.toString, and the decoded value or — when
    JSON.parse throws — the raw text. -/
def histEntry (res : KeyMod) : JsonRes :=
  { TxId := some res.tx_id
    Timestamp := some res.timestamp
    IsDelete := some (if res.is_delete then "true" else "false")
    Value := some (match res.value.decode with
      | some b => JVal.parsed b
      | none => JVal.rawStr res.value.rawText) }

/-- The jsonRes object built for one range-query snapshot
    (src/blood.js lines 309-315): the key, and the decoded record under
    Record, or the raw text under Value when JSON.parse throws. -/
def queryEntry (res : KeyMod) : JsonRes :=
  match res.value.decode with
  | some b => { Key := some res.key, Record := some (JVal.parsed b) }
  | none => { Key := some res.key, Value := some (JVal.rawStr res.value.rawText) }

/-- getAllResults (src/blood.js lines 291-326): drain the iterator in
    delivered order; a snapshot is turned into an entry only when its value
    bytes render to a non-empty string, otherwise it is skipped. -/
def getAllResults (iterator : List KeyMod) (isHistory : Bool) : List JsonRes :=
  match iterator with
  | [] => []
  | res :: rest =>
    if res.value.truthyStr then
      (if isHistory then histEntry res else queryEntry res) :: getAllResults rest isHistory
    else
      getAllResults rest isHistory

/-- getHistoryForBloodBag (src/blood.js lines 335-348): fetch the history
    cursor for the id and reconstruct it with isHistory = true.  The
    store's per-key history is passed in as a map from key to snapshot
    list. -/
def getHistoryForBloodBag (history : String → List KeyMod) (args : List String) :
    Except Err (List JsonRes) :=
  match args with
  | iD :: _ => Except.ok (getAllResults (history iD) true)
  | [] => Except.error (Err.invalidArgument "Incorrect number of arguments. Expecting BloodID")

/-- One invocation of the chaincode, for reasoning about reachable ledger
    states: the five store-touching operations with their raw argument
    lists. -/
inductive Op where
  | create (args : List String)
  | read (args : List String)
  | delete (args : List String)
  | move (args : List String)
  | assign (args : List String)

/-- The ledger state after one invocation (the state component of the
    operation's result, whether it succeeded or failed). -/
def applyOp (op : Op) (σ : Store) : Store :=
  match op with
  | .create args => (createBloodBag args σ).2
  | .read args => (readBloodBag args σ).2
  | .delete args => (deleteBloodBag args σ).2
  | .move args => (moveBagToLocation args σ).2
  | .assign args => (assignBloodBagReceiver args σ).2

/-- The ledger state after a sequence of invocations, oldest first. -/
def execTrace (ops : List Op) (σ : Store) : Store :=
  match ops with
  | [] => σ
  | op :: rest => execTrace rest (applyOp op σ)

/-- The string contains no null character (the composite-key delimiter). -/
def noNull (s : String) : Bool := s.data.all (fun c => c ≠ '\x00')

/-- A creation whose id and type arguments are free of the composite-key
    delimiter; every non-create invocation qualifies vacuously. -/
def cleanCreate : Op → Bool
  | Op.create (a0 :: _ :: _ :: a3 :: _) => noNull a0 && noNull a3
  | _ => true

lemma typeIdKey_data (t i : String) :
    (typeIdKey t i).data = "\x00type~id\x00".data ++ (t.data ++ '\x00' :: i.data) := by
  have h : typeIdKey t i = (("\x00" ++ "type~id") ++ "\x00" ++ t) ++ "\x00" ++ i := rfl
  rw [h]
  simp [String.data_append]

lemma noNull_iff {s : String} : noNull s = true ↔ ∀ c ∈ s.data, c ≠ '\x00' := by
  simp [noNull]

lemma append_sep_inj : ∀ (a c b d : List Char),
    (∀ x ∈ a, x ≠ '\x00') → (∀ x ∈ c, x ≠ '\x00') →
    a ++ '\x00' :: b = c ++ '\x00' :: d → a = c ∧ b = d := by
  intro a
  induction a with
  | nil =>
    intro c b d _ hc h
    cases c with
    | nil => simpa using h
    | cons y ys =>
      simp only [List.nil_append, List.cons_append, List.cons.injEq] at h
      exact absurd h.1.symm (hc y (by simp))
  | cons x xs ih =>
    intro c b d ha hc h
    cases c with
    | nil =>
      simp only [List.nil_append, List.cons_append, List.cons.injEq] at h
      exact absurd h.1 (ha x (by simp))
    | cons y ys =>
      simp only [List.cons_append, List.cons.injEq] at h
      obtain ⟨rfl, h2⟩ := h
      obtain ⟨rfl, rfl⟩ := ih ys b d (fun z hz => ha z (by simp [hz]))
        (fun z hz => hc z (by simp [hz])) h2
      exact ⟨rfl, rfl⟩

lemma typeIdKey_inj {t i t' i' : String} (ht : noNull t = true) (ht' : noNull t' = true)
    (h : typeIdKey t i = typeIdKey t' i') : t = t' ∧ i = i' := by
  have hd := congrArg String.data h
  rw [typeIdKey_data, typeIdKey_data] at hd
  have hd2 := List.append_cancel_left hd
  obtain ⟨h1, h2⟩ := append_sep_inj _ _ _ _ (noNull_iff.mp ht) (noNull_iff.mp ht') hd2
  exact ⟨String.ext h1, String.ext (by simpa using h2)⟩

lemma noNull_ne_typeIdKey {k : String} (hk : noNull k = true) (t i : String) :
    k ≠ typeIdKey t i := by
  intro h
  have : '\x00' ∈ k.data := by
    rw [h, typeIdKey_data]
    exact List.mem_append_left _ (by decide)
  exact noNull_iff.mp hk _ this rfl

lemma typeIdKey_ne_empty (t i : String) : typeIdKey t i ≠ "" := by
  intro h
  have := congrArg String.data h
  rw [typeIdKey_data] at this
  simp at this

lemma typeIdKey_length (t i : String) :
    (typeIdKey t i).length = 10 + t.length + i.length := by
  show (typeIdKey t i).data.length = 10 + t.data.length + i.data.length
  rw [typeIdKey_data]
  have h9 : "\x00type~id\x00".data.length = 9 := rfl
  simp [List.length_append, h9]
  omega

lemma typeIdKey_ne_snd (t i : String) : typeIdKey t i ≠ i := by
  intro h
  have := congrArg String.length h
  rw [typeIdKey_length] at this
  omega

lemma string_length_le_zero_iff {s : String} : s.length ≤ 0 ↔ s = "" := by
  rw [Nat.le_zero]
  constructor
  · intro h
    apply String.ext
    have hl : s.data.length = 0 := h
    exact List.length_eq_zero.mp hl
  · intro h; subst h; rfl

lemma decode_eq_some {x : Bytes} {b : BloodBag} : x.decode = some b ↔ x = Bytes.json b := by
  cases x <;> simp [Bytes.decode]

lemma string_length_eq_zero_iff {s : String} : s.length = 0 ↔ s = "" := by
  constructor
  · intro h
    apply String.ext
    exact List.length_eq_zero.mp h
  · intro h; subst h; rfl

lemma readBloodBag_state (args : List String) (σ : Store) : (readBloodBag args σ).2 = σ := by
  rcases args with _ | ⟨iD, _ | ⟨x, rest⟩⟩
  · rfl
  · simp only [readBloodBag]; split_ifs <;> rfl
  · rfl


lemma createBloodBag_success {a0 a1 a2 a3 a4 a5 : String} (σ : Store)
    (h0 : a0 ≠ "") (h1 : a1 ≠ "") (h2 : a2 ≠ "") (h3 : a3 ≠ "") (h4 : a4 ≠ "") (h5 : a5 ≠ "")
    (hnew : (getState σ a0).truthyStr = false) :
    createBloodBag [a0, a1, a2, a3, a4, a5] σ =
      (Except.ok (),
        putState
          (putState σ a0
            (Bytes.json ⟨"bloodbag", a0, a1, a2, "UNASIGNED", "UNASIGNED", "UNASIGNED", a3, a4, a5⟩))
          (typeIdKey a3 a0) (Bytes.raw "\x00")) := by
  simp [createBloodBag, string_length_eq_zero_iff, h0, h1, h2, h3, h4, h5, hnew, typeIdKey]

lemma createBloodBag_state (args : List String) (σ : Store) :
    (createBloodBag args σ).2 = σ ∨
    ∃ a0 a1 a2 a3 a4 a5, args = [a0, a1, a2, a3, a4, a5] ∧ a0 ≠ "" ∧ a3 ≠ "" ∧
      (getState σ a0).truthyStr = false ∧
      (createBloodBag args σ).2 =
        putState
          (putState σ a0
            (Bytes.json ⟨"bloodbag", a0, a1, a2, "UNASIGNED", "UNASIGNED", "UNASIGNED", a3, a4, a5⟩))
          (typeIdKey a3 a0) (Bytes.raw "\x00") := by
  rcases args with _ | ⟨a0, _ | ⟨a1, _ | ⟨a2, _ | ⟨a3, _ | ⟨a4, _ | ⟨a5, _ | ⟨a6, rest⟩⟩⟩⟩⟩⟩⟩
  · left; rfl
  · left; rfl
  · left; rfl
  · left; rfl
  · left; rfl
  · left; rfl
  · by_cases h0 : a0.length ≤ 0
    · left; simp [createBloodBag, h0]
    · by_cases h1 : a1.length ≤ 0
      · left; simp [createBloodBag, h0, h1]
      · by_cases h2 : a2.length ≤ 0
        · left; simp [createBloodBag, h0, h1, h2]
        · by_cases h3 : a3.length ≤ 0
          · left; simp [createBloodBag, h0, h1, h2, h3]
          · by_cases h4 : a4.length ≤ 0
            · left; simp [createBloodBag, h0, h1, h2, h3, h4]
            · by_cases h5 : a5.length ≤ 0
              · left; simp [createBloodBag, h0, h1, h2, h3, h4, h5]
              · by_cases hex : (getState σ a0).truthyStr
                · left; simp [createBloodBag, h0, h1, h2, h3, h4, h5, hex]
                · right
                  refine ⟨a0, a1, a2, a3, a4, a5, rfl, ?_, ?_, by simpa using hex, ?_⟩
                  · exact fun h => h0 (string_length_le_zero_iff.mpr h)
                  · exact fun h => h3 (string_length_le_zero_iff.mpr h)
                  · simp [createBloodBag, h0, h1, h2, h3, h4, h5, hex, typeIdKey]
  · left; rfl

lemma deleteBloodBag_state (args : List String) (σ : Store) :
    (deleteBloodBag args σ).2 = σ ∨
    ∃ iD b, args = [iD] ∧ getState σ iD = Bytes.json b ∧
      (deleteBloodBag args σ).2 = deleteState (deleteState σ iD) (typeIdKey b.type b.id) := by
  rcases args with _ | ⟨iD, _ | ⟨x, rest⟩⟩
  · left; rfl
  · by_cases hid : iD = ""
    · left; simp [deleteBloodBag, hid]
    · cases hdec : (getState σ iD).decode with
      | none => left; simp [deleteBloodBag, hid, jsBufferTruthy, hdec]
      | some b =>
        right
        refine ⟨iD, b, rfl, decode_eq_some.mp hdec, ?_⟩
        have hne : createCompositeKey "type~id" [b.type, b.id] ≠ "" := typeIdKey_ne_empty b.type b.id
        simp [deleteBloodBag, hid, jsBufferTruthy, hdec, hne, typeIdKey]
  · left; rfl

lemma moveBagToLocation_success {iD loc : String} (rest : List String) (σ : Store) (b : BloodBag)
    (h : getState σ iD = Bytes.json b) :
    moveBagToLocation (iD :: loc :: rest) σ =
      (Except.ok (), putState σ iD (Bytes.json
        (if b.destination = loc then { b with location := loc, status := "RECEIVED" }
         else { b with location := loc, status := "INTRANSIT" }))) := by
  simp [moveBagToLocation, h, jsBufferTruthy, Bytes.truthyStr, Bytes.decode]

lemma moveBagToLocation_state (args : List String) (σ : Store) :
    (moveBagToLocation args σ).2 = σ ∨
    ∃ iD loc rest b b', args = iD :: loc :: rest ∧ getState σ iD = Bytes.json b ∧
      b'.id = b.id ∧ b'.type = b.type ∧ b'.docType = b.docType ∧
      (moveBagToLocation args σ).2 = putState σ iD (Bytes.json b') := by
  rcases args with _ | ⟨iD, _ | ⟨loc, rest⟩⟩
  · left; rfl
  · left; rfl
  · cases hdec : (getState σ iD).decode with
    | none =>
      left
      cases hv : getState σ iD with
      | empty => simp [moveBagToLocation, jsBufferTruthy, hv, Bytes.truthyStr]
      | json b => rw [hv] at hdec; simp [Bytes.decode] at hdec
      | raw s =>
        by_cases hs : s = ""
        · simp [moveBagToLocation, jsBufferTruthy, hv, Bytes.truthyStr, hs]
        · simp [moveBagToLocation, jsBufferTruthy, hv, Bytes.truthyStr, hs, Bytes.decode]
    | some b =>
      right
      have hj := decode_eq_some.mp hdec
      refine ⟨iD, loc, rest, b,
        (if b.destination = loc then { b with location := loc, status := "RECEIVED" }
         else { b with location := loc, status := "INTRANSIT" }), rfl, hj, ?_, ?_, ?_, ?_⟩
      · split_ifs <;> rfl
      · split_ifs <;> rfl
      · split_ifs <;> rfl
      · rw [moveBagToLocation_success rest σ b hj]

lemma assignBloodBagReceiver_success {iD r d : String} (rest : List String) (σ : Store) (b : BloodBag)
    (h : getState σ iD = Bytes.json b) :
    assignBloodBagReceiver (iD :: r :: d :: rest) σ =
      (Except.ok (), putState σ iD (Bytes.json
        { b with recipient := r, destination := d, status := "ASSIGNED" })) := by
  simp [assignBloodBagReceiver, h, jsBufferTruthy, Bytes.truthyStr, Bytes.decode]

lemma assignBloodBagReceiver_state (args : List String) (σ : Store) :
    (assignBloodBagReceiver args σ).2 = σ ∨
    ∃ iD r d rest b b', args = iD :: r :: d :: rest ∧ getState σ iD = Bytes.json b ∧
      b'.id = b.id ∧ b'.type = b.type ∧ b'.docType = b.docType ∧
      (assignBloodBagReceiver args σ).2 = putState σ iD (Bytes.json b') := by
  rcases args with _ | ⟨iD, _ | ⟨r, _ | ⟨d, rest⟩⟩⟩
  · left; rfl
  · left; rfl
  · left; rfl
  · cases hdec : (getState σ iD).decode with
    | none =>
      left
      cases hv : getState σ iD with
      | empty => simp [assignBloodBagReceiver, jsBufferTruthy, hv, Bytes.truthyStr]
      | json b => rw [hv] at hdec; simp [Bytes.decode] at hdec
      | raw s =>
        by_cases hs : s = ""
        · simp [assignBloodBagReceiver, jsBufferTruthy, hv, Bytes.truthyStr, hs]
        · simp [assignBloodBagReceiver, jsBufferTruthy, hv, Bytes.truthyStr, hs, Bytes.decode]
    | some b =>
      right
      have hj := decode_eq_some.mp hdec
      exact ⟨iD, r, d, rest, b, { b with recipient := r, destination := d, status := "ASSIGNED" },
        rfl, hj, rfl, rfl, rfl, by rw [assignBloodBagReceiver_success rest σ b hj]⟩

/-- Lemma C10 invariant -/
def DocTypeInv (σ : Store) : Prop :=
  ∀ k b, σ k = Bytes.json b → b.docType = "bloodbag"

lemma docTypeInv_applyOp (op : Op) (σ : Store) (h : DocTypeInv σ) : DocTypeInv (applyOp op σ) := by
  cases op with
  | create args =>
    rcases createBloodBag_state args σ with heq | ⟨a0, a1, a2, a3, a4, a5, hargs, h0, h3, hnew, heq⟩
    · simpa [applyOp, heq] using h
    · intro k b hkb
      simp only [applyOp] at hkb
      rw [heq] at hkb
      by_cases hK : k = typeIdKey a3 a0
      · simp [putState, hK] at hkb
      · by_cases h0' : k = a0
        · subst h0'
          simp [putState, hK] at hkb
          rw [← hkb]
        · simp [putState, hK, h0'] at hkb
          exact h k b hkb
  | read args =>
    intro k b hkb
    exact h k b (by rwa [applyOp, readBloodBag_state] at hkb)
  | delete args =>
    rcases deleteBloodBag_state args σ with heq | ⟨iD, bb, hargs, hget, heq⟩
    · simpa [applyOp, heq] using h
    · intro k b hkb
      simp only [applyOp] at hkb
      rw [heq] at hkb
      by_cases hK : k = typeIdKey bb.type bb.id
      · simp [deleteState, hK] at hkb
      · by_cases hi : k = iD
        · simp [deleteState, hK, hi] at hkb
        · simp [deleteState, hK, hi] at hkb
          exact h k b hkb
  | move args =>
    rcases moveBagToLocation_state args σ with heq | ⟨iD, loc, rest, bb, bb', hargs, hget, _, _, hdoc, heq⟩
    · simpa [applyOp, heq] using h
    · intro k b hkb
      simp only [applyOp] at hkb
      rw [heq] at hkb
      by_cases hi : k = iD
      · simp [putState, hi] at hkb
        rw [← hkb, hdoc]
        exact h iD bb hget
      · simp [putState, hi] at hkb
        exact h k b hkb
  | assign args =>
    rcases assignBloodBagReceiver_state args σ with heq | ⟨iD, r, d, rest, bb, bb', hargs, hget, _, _, hdoc, heq⟩
    · simpa [applyOp, heq] using h
    · intro k b hkb
      simp only [applyOp] at hkb
      rw [heq] at hkb
      by_cases hi : k = iD
      · simp [putState, hi] at hkb
        rw [← hkb, hdoc]
        exact h iD bb hget
      · simp [putState, hi] at hkb
        exact h k b hkb

lemma docTypeInv_execTrace (ops : List Op) : ∀ σ, DocTypeInv σ → DocTypeInv (execTrace ops σ) := by
  induction ops with
  | nil => intro σ h; exact h
  | cons op rest ih => intro σ h; exact ih _ (docTypeInv_applyOp op σ h)

lemma docTypeInv_init : DocTypeInv Store.init := by
  intro k b hkb
  simp [Store.init] at hkb

structure LedgerInv (σ : Store) : Prop where
  rec_wf : ∀ k b, σ k = Bytes.json b → b.id = k ∧ noNull b.id = true ∧ noNull b.type = true
  rec_idx : ∀ k b, σ k = Bytes.json b → σ (typeIdKey b.type b.id) = Bytes.raw "\x00"
  idx_rec : ∀ t i, noNull t = true → noNull i = true → σ (typeIdKey t i) ≠ Bytes.empty →
    ∃ b, σ i = Bytes.json b ∧ b.type = t ∧ b.id = i

lemma ledgerInv_init : LedgerInv Store.init := by
  refine ⟨?_, ?_, ?_⟩
  · intro k b hkb; simp [Store.init] at hkb
  · intro k b hkb; simp [Store.init] at hkb
  · intro t i _ _ hne; simp [Store.init] at hne

lemma ledgerInv_create (args : List String) (σ : Store)
    (hcl : cleanCreate (Op.create args) = true) (h : LedgerInv σ) :
    LedgerInv ((createBloodBag args σ).2) := by
  rcases createBloodBag_state args σ with heq | ⟨a0, a1, a2, a3, a4, a5, hargs, h0, h3, hnew, heq⟩
  · rwa [heq]
  · subst hargs
    simp only [cleanCreate, Bool.and_eq_true] at hcl
    obtain ⟨hn0, hn3⟩ := hcl
    rw [heq]
    set bag : BloodBag :=
      ⟨"bloodbag", a0, a1, a2, "UNASIGNED", "UNASIGNED", "UNASIGNED", a3, a4, a5⟩ with hbag
    have hKne : a0 ≠ typeIdKey a3 a0 := noNull_ne_typeIdKey hn0 a3 a0
    refine ⟨?_, ?_, ?_⟩
    · intro k b hkb
      by_cases hK : k = typeIdKey a3 a0
      · simp [putState, hK] at hkb
      · by_cases hk0 : k = a0
        · subst hk0
          simp [putState, hK] at hkb
          rw [← hkb]
          exact ⟨rfl, hn0, hn3⟩
        · simp [putState, hK, hk0] at hkb
          exact h.rec_wf k b hkb
    · intro k b hkb
      by_cases hK : k = typeIdKey a3 a0
      · simp [putState, hK] at hkb
      · by_cases hk0 : k = a0
        · subst hk0
          simp [putState, hK] at hkb
          rw [← hkb]
          simp [putState]
        · simp [putState, hK, hk0] at hkb
          have hold := h.rec_idx k b hkb
          have hwf := h.rec_wf k b hkb
          by_cases hKK : typeIdKey b.type b.id = typeIdKey a3 a0
          · simp [putState, hKK]
          · have hka : typeIdKey b.type b.id ≠ a0 :=
              fun hx => noNull_ne_typeIdKey hn0 b.type b.id hx.symm
            simp [putState, hKK, hka]
            exact hold
    · intro t i ht hi hne
      by_cases hKK : typeIdKey t i = typeIdKey a3 a0
      · obtain ⟨rfl, rfl⟩ := typeIdKey_inj ht hn3 hKK
        refine ⟨bag, ?_, rfl, rfl⟩
        simp [putState, hKne]
      · have hka : typeIdKey t i ≠ a0 :=
          fun hx => noNull_ne_typeIdKey hn0 t i hx.symm
        rw [show putState (putState σ a0 (Bytes.json bag)) (typeIdKey a3 a0) (Bytes.raw "\x00") (typeIdKey t i) = σ (typeIdKey t i) from by simp [putState, hKK, hka]] at hne
        obtain ⟨b, hb, hbt, hbi⟩ := h.idx_rec t i ht hi hne
        have hia0 : i ≠ a0 := by
          intro hx
          subst hx
          simp [getState, hb, Bytes.truthyStr] at hnew
        have hiK : i ≠ typeIdKey a3 a0 := noNull_ne_typeIdKey hi a3 a0
        refine ⟨b, ?_, hbt, hbi⟩
        simp [putState, hia0, hiK]
        exact hb

lemma ledgerInv_delete (args : List String) (σ : Store) (h : LedgerInv σ) :
    LedgerInv ((deleteBloodBag args σ).2) := by
  rcases deleteBloodBag_state args σ with heq | ⟨iD, bag, hargs, hget, heq⟩
  · rwa [heq]
  · rw [heq]
    obtain ⟨hbid, hnid, hntype⟩ := h.rec_wf iD bag hget
    refine ⟨?_, ?_, ?_⟩
    · intro k b hkb
      by_cases hK : k = typeIdKey bag.type bag.id
      · simp [deleteState, hK] at hkb
      · by_cases hkid : k = iD
        · simp [deleteState, hK, hkid] at hkb
        · simp [deleteState, hK, hkid] at hkb
          exact h.rec_wf k b hkb
    · intro k b hkb
      by_cases hK : k = typeIdKey bag.type bag.id
      · simp [deleteState, hK] at hkb
      · by_cases hkid : k = iD
        · simp [deleteState, hK, hkid] at hkb
        · simp [deleteState, hK, hkid] at hkb
          have hwf := h.rec_wf k b hkb
          have hold := h.rec_idx k b hkb
          have hKK : typeIdKey b.type b.id ≠ typeIdKey bag.type bag.id := by
            intro hx
            obtain ⟨_, hid2⟩ := typeIdKey_inj hwf.2.2 hntype hx
            exact hkid (hwf.1 ▸ (hid2 ▸ hbid) : k = iD)
          have hkid2 : typeIdKey b.type b.id ≠ iD := by
            rw [← hbid]
            exact fun hx => noNull_ne_typeIdKey hnid b.type b.id hx.symm
          simp [deleteState, hKK, hkid2]
          exact hold
    · intro t i ht hi hne
      have hKK : typeIdKey t i ≠ typeIdKey bag.type bag.id := by
        intro hx
        rw [hx] at hne
        simp [deleteState] at hne
      have hkid : typeIdKey t i ≠ iD := by
        have hniD : noNull iD = true := hbid ▸ hnid
        exact fun hx => noNull_ne_typeIdKey hniD t i hx.symm
      rw [show deleteState (deleteState σ iD) (typeIdKey bag.type bag.id) (typeIdKey t i) = σ (typeIdKey t i) from by simp [deleteState, hKK, hkid]] at hne
      obtain ⟨b, hb, hbt, hbi⟩ := h.idx_rec t i ht hi hne
      have hiid : i ≠ iD := by
        intro hx
        subst hx
        have hget2 : σ i = Bytes.json bag := hget
        rw [hget2] at hb
        simp at hb
        rw [← hb] at hbt hbi
        apply hKK
        rw [← hbt, ← hbi]
      have hiK : i ≠ typeIdKey bag.type bag.id := noNull_ne_typeIdKey hi bag.type bag.id
      refine ⟨b, ?_, hbt, hbi⟩
      simp [deleteState, hiid, hiK]
      exact hb

lemma ledgerInv_putRecord {σ : Store} {iD : String} {b b' : BloodBag}
    (h : LedgerInv σ) (hget : getState σ iD = Bytes.json b)
    (hid : b'.id = b.id) (htp : b'.type = b.type) :
    LedgerInv (putState σ iD (Bytes.json b')) := by
  have hget2 : σ iD = Bytes.json b := hget
  obtain ⟨hbid, hnid, hntype⟩ := h.rec_wf iD b hget2
  have hniD : noNull iD = true := hbid ▸ hnid
  refine ⟨?_, ?_, ?_⟩
  · intro k bb hkb
    by_cases hk : k = iD
    · subst hk
      simp [putState] at hkb
      rw [← hkb]
      refine ⟨by rw [hid, hbid], by rw [hid]; exact hnid, by rw [htp]; exact hntype⟩
    · simp [putState, hk] at hkb
      exact h.rec_wf k bb hkb
  · intro k bb hkb
    by_cases hk : k = iD
    · rw [hk] at hkb
      simp [putState] at hkb
      subst hkb
      rw [hid, htp]
      have hKiD : typeIdKey b.type b.id ≠ iD :=
        fun hx => noNull_ne_typeIdKey hniD b.type b.id hx.symm
      simp [putState, hKiD]
      exact h.rec_idx iD b hget2
    · simp [putState, hk] at hkb
      have hold := h.rec_idx k bb hkb
      have hKiD : typeIdKey bb.type bb.id ≠ iD := by
        exact fun hx => noNull_ne_typeIdKey hniD bb.type bb.id hx.symm
      simp [putState, hKiD]
      exact hold
  · intro t i ht hi hne
    have hKiD : typeIdKey t i ≠ iD := fun hx => noNull_ne_typeIdKey hniD t i hx.symm
    rw [show putState σ iD (Bytes.json b') (typeIdKey t i) = σ (typeIdKey t i) from by simp [putState, hKiD]] at hne
    obtain ⟨bb, hbb, hbt, hbi⟩ := h.idx_rec t i ht hi hne
    by_cases hk : i = iD
    · subst hk
      rw [hget2] at hbb
      simp at hbb
      refine ⟨b', by simp [putState], ?_, ?_⟩
      · rw [htp, hbb]; exact hbt
      · rw [hid, hbb]; exact hbi
    · refine ⟨bb, ?_, hbt, hbi⟩
      simp [putState, hk]
      exact hbb

lemma ledgerInv_applyOp (op : Op) (σ : Store) (hcl : cleanCreate op = true) (h : LedgerInv σ) :
    LedgerInv (applyOp op σ) := by
  cases op with
  | create args => exact ledgerInv_create args σ hcl h
  | read args => rw [applyOp, readBloodBag_state]; exact h
  | delete args => exact ledgerInv_delete args σ h
  | move args =>
    rcases moveBagToLocation_state args σ with heq | ⟨iD, loc, rest, b, b', hargs, hget, hid, htp, _, heq⟩
    · rw [applyOp, heq]; exact h
    · rw [applyOp, heq]
      exact ledgerInv_putRecord h hget hid htp
  | assign args =>
    rcases assignBloodBagReceiver_state args σ with heq | ⟨iD, r, d, rest, b, b', hargs, hget, hid, htp, _, heq⟩
    · rw [applyOp, heq]; exact h
    · rw [applyOp, heq]
      exact ledgerInv_putRecord h hget hid htp

lemma ledgerInv_execTrace (ops : List Op) :
    ∀ σ, (∀ op ∈ ops, cleanCreate op = true) → LedgerInv σ → LedgerInv (execTrace ops σ) := by
  induction ops with
  | nil => intro σ _ h; exact h
  | cons op rest ih =>
    intro σ hcl h
    exact ih _ (fun o ho => hcl o (List.mem_cons_of_mem _ ho))
      (ledgerInv_applyOp op σ (hcl op (List.mem_cons_self _ _)) h)

/-- Claim C1, counterexample: on a valid six-argument creation, the record
    read back stores the misspelt sentinel 'UNASIGNED' (src/blood.js lines
    86-88), so its status field does not equal "UNASSIGNED" as claimed. -/
theorem C1_counterexample :
    (readBloodBag ["B1"] (createBloodBag ["B1", "O1", "L1", "O", "P", "500"] Store.init).2).1 =
      Except.ok (Bytes.json
        ⟨"bloodbag", "B1", "O1", "L1", "UNASIGNED", "UNASIGNED", "UNASIGNED", "O", "P", "500"⟩) ∧
    (BloodBag.status
      ⟨"bloodbag", "B1", "O1", "L1", "UNASIGNED", "UNASIGNED", "UNASIGNED", "O", "P", "500"⟩
      ≠ "UNASSIGNED") := by
  constructor
  · rfl
  · decide

/-- Claim C1 as amended: for every valid six-argument creation input,
    createBloodBag followed by readBloodBag on the same id returns a record
    whose status, recipient and destination all equal the code's sentinel
    string "UNASIGNED", and whose id, originId, location, type, rh and size
    equal the six caller-supplied arguments verbatim. -/
theorem C1_create_then_read (a0 a1 a2 a3 a4 a5 : String) (σ : Store)
    (h0 : a0 ≠ "") (h1 : a1 ≠ "") (h2 : a2 ≠ "") (h3 : a3 ≠ "") (h4 : a4 ≠ "") (h5 : a5 ≠ "")
    (hnew : (getState σ a0).truthyStr = false) :
    ∃ σ' b, createBloodBag [a0, a1, a2, a3, a4, a5] σ = (Except.ok (), σ') ∧
      readBloodBag [a0] σ' = (Except.ok (Bytes.json b), σ') ∧
      b.status = "UNASIGNED" ∧ b.recipient = "UNASIGNED" ∧ b.destination = "UNASIGNED" ∧
      b.id = a0 ∧ b.originId = a1 ∧ b.location = a2 ∧ b.type = a3 ∧ b.rh = a4 ∧ b.size = a5 := by
  refine ⟨_, ⟨"bloodbag", a0, a1, a2, "UNASIGNED", "UNASIGNED", "UNASIGNED", a3, a4, a5⟩,
    createBloodBag_success σ h0 h1 h2 h3 h4 h5 hnew, ?_, rfl, rfl, rfl, rfl, rfl, rfl, rfl, rfl, rfl⟩
  have hKa0 : a0 ≠ typeIdKey a3 a0 := (typeIdKey_ne_snd a3 a0).symm
  simp [readBloodBag, h0, getState, putState, hKa0, Bytes.truthyStr]

theorem C1_create_then_read_witness :
    ("B1" : String) ≠ "" ∧ (getState Store.init "B1").truthyStr = false ∧
    (∃ σ' b, createBloodBag ["B1", "O1", "L1", "O", "P", "500"] Store.init = (Except.ok (), σ') ∧
      readBloodBag ["B1"] σ' = (Except.ok (Bytes.json b), σ') ∧
      b.status = "UNASIGNED" ∧ b.recipient = "UNASIGNED" ∧ b.destination = "UNASIGNED" ∧
      b.id = "B1" ∧ b.originId = "O1" ∧ b.location = "L1" ∧ b.type = "O" ∧ b.rh = "P" ∧
      b.size = "500") :=
  ⟨by decide, rfl,
    C1_create_then_read "B1" "O1" "L1" "O" "P" "500" Store.init (by decide) (by decide)
      (by decide) (by decide) (by decide) (by decide) rfl⟩

/-- Claim C2, counterexample: composite-key attributes may contain the
    null-character delimiter, so two different (type, id) pairs can share
    one index key.  Creating (type = 'O\x00X', id = 'B1') and
    (type = 'O', id = 'X\x00B1') writes both records but a single shared
    index entry; deleting 'B1' then removes that entry while the record of
    'X\x00B1' still exists, violating the claimed lock-step invariant. -/
theorem C2_counterexample :
    execTrace [Op.create ["B1", "o", "l", "O\x00X", "r", "s"],
               Op.create ["X\x00B1", "o", "l", "O", "r", "s"],
               Op.delete ["B1"]] Store.init "X\x00B1" =
      Bytes.json ⟨"bloodbag", "X\x00B1", "o", "l", "UNASIGNED", "UNASIGNED", "UNASIGNED", "O", "r", "s"⟩ ∧
    execTrace [Op.create ["B1", "o", "l", "O\x00X", "r", "s"],
               Op.create ["X\x00B1", "o", "l", "O", "r", "s"],
               Op.delete ["B1"]] Store.init (typeIdKey "O" "X\x00B1") =
      Bytes.empty := by
  constructor
  · rfl
  · rfl

/-- Claim C2 as amended: for every store state reachable by invocation
    traces whose creations use delimiter-free type and id arguments, the
    secondary index entry at typeIdKey t i is present exactly when a
    primary record with that type sits at id i: create writes both, delete
    removes both, and every operation keeps them in lock-step. -/
theorem C2_lockstep (ops : List Op) (hcl : ∀ op ∈ ops, cleanCreate op = true)
    (t i : String) (ht : noNull t = true) (hi : noNull i = true) :
    execTrace ops Store.init (typeIdKey t i) ≠ Bytes.empty ↔
      ∃ b, execTrace ops Store.init i = Bytes.json b ∧ b.type = t ∧ b.id = i := by
  have hInv := ledgerInv_execTrace ops Store.init hcl ledgerInv_init
  constructor
  · exact hInv.idx_rec t i ht hi
  · rintro ⟨b, hb, hbt, hbi⟩
    have hx := hInv.rec_idx i b hb
    rw [hbt, hbi] at hx
    rw [hx]
    simp

theorem C2_lockstep_witness :
    (∀ op ∈ [Op.create ["B1", "O1", "L1", "O", "P", "500"]], cleanCreate op = true) ∧
    noNull "O" = true ∧ noNull "B1" = true ∧
    (execTrace [Op.create ["B1", "O1", "L1", "O", "P", "500"]] Store.init (typeIdKey "O" "B1") ≠
        Bytes.empty ↔
      ∃ b, execTrace [Op.create ["B1", "O1", "L1", "O", "P", "500"]] Store.init "B1" =
          Bytes.json b ∧ b.type = "O" ∧ b.id = "B1") :=
  ⟨by decide, by decide, by decide,
    C2_lockstep [Op.create ["B1", "O1", "L1", "O", "P", "500"]] (by decide) "O" "B1"
      (by decide) (by decide)⟩

/-- Claim C3, counterexample: readBloodBag never decodes the stored bytes
    (src/blood.js line 148 returns them as they are), so on undecodable
    stored bytes it succeeds with the raw bytes instead of failing with
    DecodeError as claimed. -/
theorem C3_counterexample :
    Bytes.decode (Bytes.raw "corrupt") = none ∧
    (readBloodBag ["B1"] (putState Store.init "B1" (Bytes.raw "corrupt"))).1 =
      Except.ok (Bytes.raw "corrupt") := by
  constructor
  · rfl
  · rfl

/-- Claim C3 as amended: readBloodBag fails with NotFound when the stored
    value at id is empty (empty value counts as absent); otherwise it
    succeeds and returns the stored bytes verbatim, performing no decode,
    so even bytes that do not parse as a bag record are returned as-is. -/
theorem C3_read_behaviour (iD : String) (σ : Store) (hid : iD ≠ "") :
    ((getState σ iD).truthyStr = false →
      readBloodBag [iD] σ = (Except.error (Err.notFound iD), σ)) ∧
    ((getState σ iD).truthyStr = true →
      readBloodBag [iD] σ = (Except.ok (getState σ iD), σ)) := by
  constructor
  · intro h
    simp [readBloodBag, hid, h]
  · intro h
    simp [readBloodBag, hid, h]

theorem C3_read_behaviour_witness :
    ("B1" : String) ≠ "" ∧
    (((getState Store.init "B1").truthyStr = false →
      readBloodBag ["B1"] Store.init = (Except.error (Err.notFound "B1"), Store.init)) ∧
    ((getState Store.init "B1").truthyStr = true →
      readBloodBag ["B1"] Store.init = (Except.ok (getState Store.init "B1"), Store.init))) :=
  ⟨by decide, C3_read_behaviour "B1" Store.init (by decide)⟩

/-- Claim C4: the code contradicts the claim (and its own dead NotFound
    guard) on absent ids.  fabric-shim getState resolves to a zero-length
    Buffer for an absent key and a Buffer object is always truthy, so the
    guard at src/blood.js line 171 never fires and JSON.parse of the empty
    string throws instead: deleteBloodBag on a never-created id fails with
    DecodeError, not NotFound.  On undecodable stored bytes it does fail
    with DecodeError; in both cases no store key is deleted. -/
theorem C4_delete_absent_decodeError :
    deleteBloodBag ["GHOST"] Store.init =
      (Except.error (Err.decodeError "GHOST"), Store.init) ∧
    deleteBloodBag ["B1"] (putState Store.init "B1" (Bytes.raw "corrupt")) =
      (Except.error (Err.decodeError "B1"), putState Store.init "B1" (Bytes.raw "corrupt")) := by
  constructor
  · rfl
  · rfl

/-- Claim C5, counterexample: a deletion snapshot carries an empty value,
    so the guard at src/blood.js line 295 skips it: a cursor with three
    writes followed by one delete reconstructs to three entries, not four,
    and no entry is flagged as a deletion. -/
theorem C5_counterexample :
    (getAllResults
      [⟨"", "tx1", 1, false, Bytes.json ⟨"bloodbag", "B1", "O1", "L1", "UNASIGNED", "UNASIGNED", "UNASIGNED", "O", "P", "500"⟩⟩,
       ⟨"", "tx2", 2, false, Bytes.json ⟨"bloodbag", "B1", "O1", "L2", "INTRANSIT", "UNASIGNED", "UNASIGNED", "O", "P", "500"⟩⟩,
       ⟨"", "tx3", 3, false, Bytes.json ⟨"bloodbag", "B1", "O1", "L2", "ASSIGNED", "R1", "H1", "O", "P", "500"⟩⟩,
       ⟨"", "tx4", 4, true, Bytes.empty⟩] true).length = 3 ∧
    (getAllResults
      [⟨"", "tx1", 1, false, Bytes.json ⟨"bloodbag", "B1", "O1", "L1", "UNASIGNED", "UNASIGNED", "UNASIGNED", "O", "P", "500"⟩⟩,
       ⟨"", "tx2", 2, false, Bytes.json ⟨"bloodbag", "B1", "O1", "L2", "INTRANSIT", "UNASIGNED", "UNASIGNED", "O", "P", "500"⟩⟩,
       ⟨"", "tx3", 3, false, Bytes.json ⟨"bloodbag", "B1", "O1", "L2", "ASSIGNED", "R1", "H1", "O", "P", "500"⟩⟩,
       ⟨"", "tx4", 4, true, Bytes.empty⟩] true).map JsonRes.IsDelete =
      [some "false", some "false", some "false"] := by
  constructor
  · rfl
  · rfl

/-- Claim C5 as amended: over a history cursor delivering three non-empty
    write snapshots followed by one deletion snapshot (whose value is
    empty), getAllResults with isHistory true returns exactly the three
    write entries in store-delivered order — the deletion snapshot is
    skipped by the non-empty-value guard, so no entry is flagged as a
    deletion; and when the second snapshot's bytes fail to decode, its
    entry carries the raw bytes in place of the decoded record, with no
    abort. -/
theorem C5_history_reconstruction (s1 s2 s3 sd : KeyMod)
    (h1 : s1.value.truthyStr = true) (h2 : s2.value.truthyStr = true)
    (h3 : s3.value.truthyStr = true) (hd : sd.value = Bytes.empty) :
    getAllResults [s1, s2, s3, sd] true = [histEntry s1, histEntry s2, histEntry s3] ∧
    (∀ c, s2.value = Bytes.raw c → (histEntry s2).Value = some (JVal.rawStr c)) := by
  constructor
  · simp [getAllResults, h1, h2, h3, hd, show Bytes.empty.truthyStr = false from rfl]
  · intro c hc
    simp [histEntry, hc, Bytes.decode, Bytes.rawText]

theorem C5_history_reconstruction_witness :
    ((Bytes.json ⟨"bloodbag", "B1", "O1", "L1", "UNASIGNED", "UNASIGNED", "UNASIGNED", "O", "P", "500"⟩).truthyStr = true) ∧
    ((Bytes.raw "corrupt").truthyStr = true) ∧
    (getAllResults
      [⟨"", "tx1", 1, false, Bytes.json ⟨"bloodbag", "B1", "O1", "L1", "UNASIGNED", "UNASIGNED", "UNASIGNED", "O", "P", "500"⟩⟩,
       ⟨"", "tx2", 2, false, Bytes.raw "corrupt"⟩,
       ⟨"", "tx3", 3, false, Bytes.json ⟨"bloodbag", "B1", "O1", "L2", "ASSIGNED", "R1", "H1", "O", "P", "500"⟩⟩,
       ⟨"", "tx4", 4, true, Bytes.empty⟩] true =
      [histEntry ⟨"", "tx1", 1, false, Bytes.json ⟨"bloodbag", "B1", "O1", "L1", "UNASIGNED", "UNASIGNED", "UNASIGNED", "O", "P", "500"⟩⟩,
       histEntry ⟨"", "tx2", 2, false, Bytes.raw "corrupt"⟩,
       histEntry ⟨"", "tx3", 3, false, Bytes.json ⟨"bloodbag", "B1", "O1", "L2", "ASSIGNED", "R1", "H1", "O", "P", "500"⟩⟩] ∧
    (∀ c, (Bytes.raw "corrupt") = Bytes.raw c →
      (histEntry (⟨"", "tx2", 2, false, Bytes.raw "corrupt"⟩ : KeyMod)).Value =
        some (JVal.rawStr c))) :=
  ⟨rfl, rfl,
    C5_history_reconstruction
      ⟨"", "tx1", 1, false, Bytes.json ⟨"bloodbag", "B1", "O1", "L1", "UNASIGNED", "UNASIGNED", "UNASIGNED", "O", "P", "500"⟩⟩
      ⟨"", "tx2", 2, false, Bytes.raw "corrupt"⟩
      ⟨"", "tx3", 3, false, Bytes.json ⟨"bloodbag", "B1", "O1", "L2", "ASSIGNED", "R1", "H1", "O", "P", "500"⟩⟩
      ⟨"", "tx4", 4, true, Bytes.empty⟩ rfl rfl rfl rfl⟩

/-- Claim C6: for every stored, decodable record at id, moveBagToLocation
    performs a full read-modify-write setting location to the new location
    and status to RECEIVED when the new location equals the record's
    destination, INTRANSIT otherwise (in particular whenever destination
    still holds the creation sentinel and differs from the new location). -/
theorem C6_move_transition (iD loc : String) (rest : List String) (σ : Store) (b : BloodBag)
    (h : getState σ iD = Bytes.json b) :
    moveBagToLocation (iD :: loc :: rest) σ =
      (Except.ok (), putState σ iD (Bytes.json
        { b with location := loc,
                 status := if b.destination = loc then "RECEIVED" else "INTRANSIT" })) := by
  rw [moveBagToLocation_success rest σ b h]
  by_cases hd : b.destination = loc
  · simp [hd]
  · simp [hd]

theorem C6_move_transition_witness :
    getState (putState Store.init "B1"
        (Bytes.json ⟨"bloodbag", "B1", "O1", "L1", "ASSIGNED", "R1", "Hospital", "O", "P", "500"⟩))
        "B1" =
      Bytes.json ⟨"bloodbag", "B1", "O1", "L1", "ASSIGNED", "R1", "Hospital", "O", "P", "500"⟩ ∧
    moveBagToLocation ["B1", "Hospital"]
        (putState Store.init "B1"
          (Bytes.json ⟨"bloodbag", "B1", "O1", "L1", "ASSIGNED", "R1", "Hospital", "O", "P", "500"⟩)) =
      (Except.ok (), putState
        (putState Store.init "B1"
          (Bytes.json ⟨"bloodbag", "B1", "O1", "L1", "ASSIGNED", "R1", "Hospital", "O", "P", "500"⟩))
        "B1" (Bytes.json
          ({ (⟨"bloodbag", "B1", "O1", "L1", "ASSIGNED", "R1", "Hospital", "O", "P", "500"⟩ : BloodBag) with
            location := "Hospital",
            status := if (BloodBag.destination ⟨"bloodbag", "B1", "O1", "L1", "ASSIGNED", "R1", "Hospital", "O", "P", "500"⟩) = "Hospital" then "RECEIVED" else "INTRANSIT" }))) :=
  ⟨rfl,
    C6_move_transition "B1" "Hospital" [] _
      ⟨"bloodbag", "B1", "O1", "L1", "ASSIGNED", "R1", "Hospital", "O", "P", "500"⟩ rfl⟩

/-- Claim C7: for every stored, decodable record at id,
    assignBloodBagReceiver sets recipient, destination and status ASSIGNED
    unconditionally, so two successive calls with different arguments both
    succeed and leave the record reflecting only the second call's values. -/
theorem C7_assign_last_write_wins (iD r1 d1 r2 d2 : String) (σ : Store) (b : BloodBag)
    (h : getState σ iD = Bytes.json b) :
    ∃ σ1 σ2, assignBloodBagReceiver [iD, r1, d1] σ = (Except.ok (), σ1) ∧
      assignBloodBagReceiver [iD, r2, d2] σ1 = (Except.ok (), σ2) ∧
      getState σ2 iD = Bytes.json
        { b with recipient := r2, destination := d2, status := "ASSIGNED" } := by
  have hstep1 := @assignBloodBagReceiver_success iD r1 d1 ([] : List String) σ b h
  have hget1 : getState (putState σ iD (Bytes.json
      { b with recipient := r1, destination := d1, status := "ASSIGNED" })) iD =
      Bytes.json { b with recipient := r1, destination := d1, status := "ASSIGNED" } := by
    simp [getState, putState]
  have hstep2 := @assignBloodBagReceiver_success iD r2 d2 ([] : List String) _ _ hget1
  refine ⟨_, _, hstep1, hstep2, ?_⟩
  simp [getState, putState]

theorem C7_assign_last_write_wins_witness :
    getState (putState Store.init "B1"
        (Bytes.json ⟨"bloodbag", "B1", "O1", "L1", "UNASIGNED", "UNASIGNED", "UNASIGNED", "O", "P", "500"⟩))
        "B1" =
      Bytes.json ⟨"bloodbag", "B1", "O1", "L1", "UNASIGNED", "UNASIGNED", "UNASIGNED", "O", "P", "500"⟩ ∧
    (∃ σ1 σ2, assignBloodBagReceiver ["B1", "R1", "H1"]
        (putState Store.init "B1"
          (Bytes.json ⟨"bloodbag", "B1", "O1", "L1", "UNASIGNED", "UNASIGNED", "UNASIGNED", "O", "P", "500"⟩)) =
        (Except.ok (), σ1) ∧
      assignBloodBagReceiver ["B1", "R2", "H2"] σ1 = (Except.ok (), σ2) ∧
      getState σ2 "B1" = Bytes.json
        { (⟨"bloodbag", "B1", "O1", "L1", "UNASIGNED", "UNASIGNED", "UNASIGNED", "O", "P", "500"⟩ : BloodBag) with
          recipient := "R2", destination := "H2", status := "ASSIGNED" }) :=
  ⟨rfl,
    C7_assign_last_write_wins "B1" "R1" "H1" "R2" "H2" _
      ⟨"bloodbag", "B1", "O1", "L1", "UNASIGNED", "UNASIGNED", "UNASIGNED", "O", "P", "500"⟩ rfl⟩

/-- Claim C8: for every id whose stored value is non-empty (whether or not
    it decodes), a six-argument createBloodBag with non-empty arguments on
    that id fails with AlreadyExists and leaves the store untouched:
    neither the primary record nor any index entry is written. -/
theorem C8_create_already_exists (a0 a1 a2 a3 a4 a5 : String) (σ : Store)
    (h0 : a0 ≠ "") (h1 : a1 ≠ "") (h2 : a2 ≠ "") (h3 : a3 ≠ "") (h4 : a4 ≠ "") (h5 : a5 ≠ "")
    (hex : (getState σ a0).truthyStr = true) :
    createBloodBag [a0, a1, a2, a3, a4, a5] σ = (Except.error (Err.alreadyExists a0), σ) := by
  simp [createBloodBag, string_length_eq_zero_iff, h0, h1, h2, h3, h4, h5, hex]

theorem C8_create_already_exists_witness :
    (getState (putState Store.init "B1" (Bytes.raw "corrupt")) "B1").truthyStr = true ∧
    createBloodBag ["B1", "O1", "L1", "O", "P", "500"]
        (putState Store.init "B1" (Bytes.raw "corrupt")) =
      (Except.error (Err.alreadyExists "B1"), putState Store.init "B1" (Bytes.raw "corrupt")) :=
  ⟨rfl,
    C8_create_already_exists "B1" "O1" "L1" "O" "P" "500" _
      (by decide) (by decide) (by decide) (by decide) (by decide) (by decide) rfl⟩

/-- Claim C9: for every stored, decodable record, a successful
    moveBagToLocation leaves id, originId, type, rh, size, recipient and
    destination unchanged, and a successful assignBloodBagReceiver leaves
    id, originId, type, rh, size and location unchanged: each mutator
    rewrites the full record touching only its designated mutable fields. -/
theorem C9_mutators_frame (iD loc r d : String) (rest rest2 : List String) (σ : Store)
    (b : BloodBag) (h : getState σ iD = Bytes.json b) :
    (∃ b', moveBagToLocation (iD :: loc :: rest) σ =
        (Except.ok (), putState σ iD (Bytes.json b')) ∧
      b'.id = b.id ∧ b'.originId = b.originId ∧ b'.type = b.type ∧ b'.rh = b.rh ∧
      b'.size = b.size ∧ b'.recipient = b.recipient ∧ b'.destination = b.destination) ∧
    (∃ b'', assignBloodBagReceiver (iD :: r :: d :: rest2) σ =
        (Except.ok (), putState σ iD (Bytes.json b'')) ∧
      b''.id = b.id ∧ b''.originId = b.originId ∧ b''.type = b.type ∧ b''.rh = b.rh ∧
      b''.size = b.size ∧ b''.location = b.location) := by
  constructor
  · refine ⟨_, moveBagToLocation_success rest σ b h, ?_, ?_, ?_, ?_, ?_, ?_, ?_⟩ <;>
      by_cases hd : b.destination = loc <;> simp [hd]
  · exact ⟨_, assignBloodBagReceiver_success rest2 σ b h, rfl, rfl, rfl, rfl, rfl, rfl⟩

theorem C9_mutators_frame_witness :
    getState (putState Store.init "B1"
        (Bytes.json ⟨"bloodbag", "B1", "O1", "L1", "UNASIGNED", "UNASIGNED", "UNASIGNED", "O", "P", "500"⟩))
        "B1" =
      Bytes.json ⟨"bloodbag", "B1", "O1", "L1", "UNASIGNED", "UNASIGNED", "UNASIGNED", "O", "P", "500"⟩ ∧
    ((∃ b', moveBagToLocation ["B1", "L2"]
        (putState Store.init "B1"
          (Bytes.json ⟨"bloodbag", "B1", "O1", "L1", "UNASIGNED", "UNASIGNED", "UNASIGNED", "O", "P", "500"⟩)) =
        (Except.ok (), putState
          (putState Store.init "B1"
            (Bytes.json ⟨"bloodbag", "B1", "O1", "L1", "UNASIGNED", "UNASIGNED", "UNASIGNED", "O", "P", "500"⟩))
          "B1" (Bytes.json b')) ∧
      b'.id = "B1" ∧ b'.originId = "O1" ∧ b'.type = "O" ∧ b'.rh = "P" ∧
      b'.size = "500" ∧ b'.recipient = "UNASIGNED" ∧ b'.destination = "UNASIGNED") ∧
    (∃ b'', assignBloodBagReceiver ["B1", "R1", "H1"]
        (putState Store.init "B1"
          (Bytes.json ⟨"bloodbag", "B1", "O1", "L1", "UNASIGNED", "UNASIGNED", "UNASIGNED", "O", "P", "500"⟩)) =
        (Except.ok (), putState
          (putState Store.init "B1"
            (Bytes.json ⟨"bloodbag", "B1", "O1", "L1", "UNASIGNED", "UNASIGNED", "UNASIGNED", "O", "P", "500"⟩))
          "B1" (Bytes.json b'')) ∧
      b''.id = "B1" ∧ b''.originId = "O1" ∧ b''.type = "O" ∧ b''.rh = "P" ∧
      b''.size = "500" ∧ b''.location = "L1")) :=
  ⟨rfl,
    C9_mutators_frame "B1" "L2" "R1" "H1" [] [] _
      ⟨"bloodbag", "B1", "O1", "L1", "UNASIGNED", "UNASIGNED", "UNASIGNED", "O", "P", "500"⟩ rfl⟩

/-- Claim C10: every decodable record in any store state reachable from
    the empty ledger carries docType = 'bloodbag': createBloodBag writes
    it and moveBagToLocation and assignBloodBagReceiver preserve it. -/
theorem C10_docType_invariant (ops : List Op) (k : String) (b : BloodBag)
    (h : execTrace ops Store.init k = Bytes.json b) : b.docType = "bloodbag" :=
  docTypeInv_execTrace ops Store.init docTypeInv_init k b h

theorem C10_docType_invariant_witness :
    execTrace [Op.create ["B1", "O1", "L1", "O", "P", "500"]] Store.init "B1" =
      Bytes.json ⟨"bloodbag", "B1", "O1", "L1", "UNASIGNED", "UNASIGNED", "UNASIGNED", "O", "P", "500"⟩ ∧
    (BloodBag.docType
      ⟨"bloodbag", "B1", "O1", "L1", "UNASIGNED", "UNASIGNED", "UNASIGNED", "O", "P", "500"⟩) =
      "bloodbag" :=
  ⟨rfl,
    C10_docType_invariant [Op.create ["B1", "O1", "L1", "O", "P", "500"]] "B1"
      ⟨"bloodbag", "B1", "O1", "L1", "UNASIGNED", "UNASIGNED", "UNASIGNED", "O", "P", "500"⟩ rfl⟩
